import Mathlib

/-!
Shallow embedding of `covid.py`, a single-pipeline script that fetches a
daily COVID dataset, filters rows by a cumulative-positive threshold, adds
derived rate columns and rolling averages, and renders charts with weekly
x-axis ticks.

Modelling conventions:
* Numeric columns of the dataframe are rationals (`ℚ`); a pandas value that
  is NaN or infinite (e.g. the result of division by zero, or a rolling
  window that is incomplete) is `none : Option ℚ`.
* Dates are integers counting days, with day 0 falling on a Monday, so the
  Python `weekday()` of day `d` is `d % 7` (Monday = 0), and
  `datetime.timedelta(days = k)` is addition of `k`.
* Strings (the state code, URLs, filenames) are lists of character codes
  (`List Nat`); `pyLower`/`pyUpper` model Python `str.lower`/`str.upper`
  on the ASCII range, which covers state codes.
* The network fetch, matplotlib rendering and the PDF write are side
  effects outside the data transformation; `create_graphs` returns the
  data that feeds them (resolved config, derived frame, major ticks), or
  an `Except.error` carrying the Python exception message where the script
  would raise (`ValueError` from a negative rolling window inside pandas,
  `IndexError` from `date[-1]` on an empty filtered series).
-/

/-- One row of the fetched dataframe: the columns of `daily.csv` that the
script reads (covid.py lines 35-49). -/
structure DailyRecord where
  date : Int
  positive : ℚ
  negative : ℚ
  positiveIncrease : ℚ
  deathIncrease : ℚ
  death : ℚ
deriving DecidableEq

/-- Placeholder record used as the default for safe list indexing. -/
def dummyRecord : DailyRecord :=
  { date := 0, positive := 0, negative := 0, positiveIncrease := 0,
    deathIncrease := 0, death := 0 }

/-- Parsed command-line options (covid.py lines 11-19): `--average`,
`--state`, `--positive-start`. -/
structure Options where
  average : Int
  state : Option (List Nat)
  positive_start : Int
deriving DecidableEq

/-- Embedding of `get_options` (covid.py lines 11-19): argparse coerces the
two numeric flags with `type=int` and applies no further validation, so any
integers (and any optional state string) are accepted as-is. -/
def get_options (average : Int) (state : Option (List Nat)) (positive_start : Int) : Options :=
  { average := average, state := state, positive_start := positive_start }

/-- ASCII lowering of one character code, modelling Python `str.lower` on
the ASCII range. -/
def lowerChar (c : Nat) : Nat :=
  if 65 ≤ c ∧ c ≤ 90 then c + 32 else c

/-- ASCII uppering of one character code, modelling Python `str.upper` on
the ASCII range. -/
def upperChar (c : Nat) : Nat :=
  if 97 ≤ c ∧ c ≤ 122 then c - 32 else c

/-- Python `opt.state.lower()` on a string of character codes. -/
def pyLower (s : List Nat) : List Nat := s.map lowerChar

/-- Python `opt.state.upper()` on a string of character codes. -/
def pyUpper (s : List Nat) : List Nat := s.map upperChar

/-- Character codes of a Lean string literal (used for the fixed URL and
filename fragments of covid.py lines 22-29). -/
def strCodes (s : String) : List Nat := s.data.map Char.toNat

/-- The region-dependent values resolved at covid.py lines 22-29: the chart
title label, the fetch URL and the output filename. -/
structure Config where
  label : List Nat
  url : List Nat
  outfile : List Nat
deriving DecidableEq

/-- Config of the `else` branch (covid.py lines 26-29): national data. -/
def usConfig : Config :=
  { label := strCodes "US",
    url := strCodes "https://covidtracking.com/api/v1/us/daily.csv",
    outfile := strCodes "covid_us.pdf" }

/-- Embedding of covid.py lines 22-29. Python `if opt.state:` is falsy for
a missing option and for the empty string, so both select the US branch;
otherwise the label uppercases the code, the URL lowercases it, and the
output filename interpolates it verbatim. -/
def resolveConfig (opt : Options) : Config :=
  match opt.state with
  | some s =>
      if s = [] then usConfig
      else
        { label := pyUpper s,
          url := strCodes "https://covidtracking.com/api/v1/states/" ++ pyLower s
                   ++ strCodes "/daily.csv",
          outfile := strCodes "covid_" ++ s ++ strCodes ".pdf" }
  | none => usConfig

/-- The row filter of covid.py lines 35-36: keep rows with
`positive > opt.positive_start` (strict comparison). -/
def filteredRows (t : Int) (rows : List DailyRecord) : List DailyRecord :=
  rows.filter (fun r => decide ((t : ℚ) < r.positive))

/-- Column `infection_rate` (covid.py line 39):
`positive / (positive + negative) * 100`; pandas division by zero yields a
non-finite value, modelled as `none`. -/
def infectionRateOf (r : DailyRecord) : Option ℚ :=
  if r.positive + r.negative = 0 then none
  else some (r.positive / (r.positive + r.negative) * 100)

/-- Column `death_rate` (covid.py line 45): `death / positive * 100`;
pandas division by zero yields a non-finite value, modelled as `none`. -/
def deathRateOf (r : DailyRecord) : Option ℚ :=
  if r.positive = 0 then none
  else some (r.death / r.positive * 100)

/-- Collects a window of optional values: `some` of the list exactly when
every entry is defined, matching pandas rolling means over windows that
contain a NaN (the mean is NaN as soon as one entry is). -/
def seqO : List (Option ℚ) → Option (List ℚ)
  | [] => some []
  | none :: _ => none
  | some x :: rest => (seqO rest).map (fun vs => x :: vs)

/-- Embedding of `Series.rolling(window=w, center=False).mean()`: position
`i` carries the mean of the `w` entries ending at `i` when `1 ≤ w ≤ i + 1`
and all of them are defined, and NaN (`none`) otherwise. A window of 0 is
accepted by pandas and produces an all-NaN series. -/
def rollingMeanO (w : Nat) (xs : List (Option ℚ)) : List (Option ℚ) :=
  (List.range xs.length).map (fun i =>
    if 1 ≤ w ∧ w ≤ i + 1 then
      (seqO ((xs.drop (i + 1 - w)).take w)).map (fun vs => vs.sum / (w : ℚ))
    else none)

/-- Embedding of `Series.shift(-p)` for `p ≥ 0`: position `i` receives the
value from position `i + p`, and the vacated trailing positions become NaN
(`none`). -/
def shiftNeg (p : Nat) (xs : List (Option ℚ)) : List (Option ℚ) :=
  (List.range xs.length).map (fun i => xs.getD (i + p) none)

/-- The composite used for every averaged column of covid.py lines 40-46:
`.rolling(window=w, center=False).mean().shift(-w)`. -/
def rollingAvgShift (w : Nat) (xs : List (Option ℚ)) : List (Option ℚ) :=
  shiftNeg w (rollingMeanO w xs)

/-- One row of the dataframe after covid.py lines 39-46: the original six
columns plus the six derived columns. -/
structure DerivedRow where
  date : Int
  positive : ℚ
  negative : ℚ
  positiveIncrease : ℚ
  deathIncrease : ℚ
  death : ℚ
  infection_rate : Option ℚ
  infection_rate_avg : Option ℚ
  new_cases_avg : Option ℚ
  new_deaths_avg : Option ℚ
  death_rate : Option ℚ
  death_rate_avg : Option ℚ
deriving DecidableEq

/-- Placeholder derived row used as the default for safe list indexing. -/
def dummyDerived : DerivedRow :=
  { date := 0, positive := 0, negative := 0, positiveIncrease := 0,
    deathIncrease := 0, death := 0, infection_rate := none,
    infection_rate_avg := none, new_cases_avg := none, new_deaths_avg := none,
    death_rate := none, death_rate_avg := none }

/-- Projection back to the original columns of a derived row. -/
def origOf (r : DerivedRow) : DailyRecord :=
  { date := r.date, positive := r.positive, negative := r.negative,
    positiveIncrease := r.positiveIncrease, deathIncrease := r.deathIncrease,
    death := r.death }

/-- Embedding of the column additions of covid.py lines 39-46 on the
filtered frame: each row keeps its original columns and gains the two rate
columns and the four averaged columns, every averaged column being
`rollingAvgShift` of its raw column. -/
def deriveRows (w : Nat) (rows : List DailyRecord) : List DerivedRow :=
  let ir := rows.map infectionRateOf
  let dr := rows.map deathRateOf
  let irAvg := rollingAvgShift w ir
  let ncAvg := rollingAvgShift w (rows.map (fun r => some r.positiveIncrease))
  let ndAvg := rollingAvgShift w (rows.map (fun r => some r.deathIncrease))
  let drAvg := rollingAvgShift w dr
  (List.range rows.length).map (fun i =>
    let r := rows.getD i dummyRecord
    { date := r.date, positive := r.positive, negative := r.negative,
      positiveIncrease := r.positiveIncrease, deathIncrease := r.deathIncrease,
      death := r.death,
      infection_rate := ir.getD i none,
      infection_rate_avg := irAvg.getD i none,
      new_cases_avg := ncAvg.getD i none,
      new_deaths_avg := ndAvg.getD i none,
      death_rate := dr.getD i none,
      death_rate_avg := drAvg.getD i none })

/-- Embedding of the major-tick computation of covid.py lines 81-83:
`wks = math.ceil(len(date)/7) + 1`, the anchor is
`date[-1] - timedelta(days=date[-1].weekday())` (the Monday on or before
the last date), and the ticks are `start + 7*i` for `i` in `range(wks)`. -/
def xticksOf (dates : List Int) : List Int :=
  let wks := Nat.ceil ((dates.length : ℚ) / 7) + 1
  let start := dates.getLastD 0 - dates.getLastD 0 % 7
  (List.range wks).map (fun i : Nat => start + 7 * (i : Int))

/-- The data produced by a successful run of `create_graphs`: the resolved
config (whose outfile the figure is saved to), the derived frame behind the
four panels, and the major x-ticks. -/
structure Output where
  config : Config
  derived : List DerivedRow
  xticks : List Int
deriving DecidableEq

/-- Embedding of `create_graphs` (covid.py lines 21-95) applied to the rows
parsed from the fetched CSV. The two failure points of the data path are
surfaced as errors: pandas rejects a negative rolling window at lines 40-46
(`ValueError`), and `date[-1]` at line 82 raises on an empty filtered
series (`IndexError`). -/
def create_graphs (opt : Options) (rows : List DailyRecord) : Except String Output :=
  let cfg := resolveConfig opt
  let filtered := filteredRows opt.positive_start rows
  if opt.average < 0 then
    Except.error "ValueError: window must be an integer 0 or greater"
  else
    let derived := deriveRows opt.average.toNat filtered
    let dates := filtered.map (fun r => r.date)
    if dates = [] then Except.error "IndexError: list index out of range"
    else Except.ok { config := cfg, derived := derived, xticks := xticksOf dates }

/-! ## Helper lemmas about the embedded operations -/

theorem ceil_div_seven (n : Nat) : Nat.ceil ((n : ℚ) / 7) = (n + 6) / 7 := by
  rcases Nat.eq_zero_or_pos n with h0 | hpos
  · subst h0; simp
  · have hq1 : 1 ≤ (n + 6) / 7 := by omega
    have h1 : 7 * ((n + 6) / 7) ≤ n + 6 := by omega
    rw [Nat.ceil_eq_iff (by omega)]
    constructor
    · rw [lt_div_iff₀ (by norm_num : (0:ℚ) < 7)]
      rw [Nat.cast_sub hq1]
      push_cast
      have h1q : 7 * ((((n + 6) / 7 : Nat) : ℚ)) ≤ (n : ℚ) + 6 := by exact_mod_cast h1
      have hposq : (1 : ℚ) ≤ (n : ℚ) := by exact_mod_cast hpos
      linarith
    · rw [div_le_iff₀ (by norm_num : (0:ℚ) < 7)]
      have h3 : (n : ℚ) ≤ 7 * ((((n + 6) / 7 : Nat) : ℚ)) := by
        have : n ≤ 7 * ((n + 6) / 7) := by omega
        exact_mod_cast this
      linarith

theorem xticksOf_eq (dates : List Int) :
    xticksOf dates = (List.range ((dates.length + 6) / 7 + 1)).map
      (fun i : Nat => (dates.getLastD 0 - dates.getLastD 0 % 7) + 7 * (i : Int)) := by
  unfold xticksOf
  rw [ceil_div_seven]

theorem rollingMeanO_length (w : Nat) (xs : List (Option ℚ)) :
    (rollingMeanO w xs).length = xs.length := by
  simp [rollingMeanO]

theorem shiftNeg_length (p : Nat) (xs : List (Option ℚ)) :
    (shiftNeg p xs).length = xs.length := by
  simp [shiftNeg]

theorem rollingAvgShift_length (w : Nat) (xs : List (Option ℚ)) :
    (rollingAvgShift w xs).length = xs.length := by
  simp [rollingAvgShift, shiftNeg_length, rollingMeanO_length]

theorem deriveRows_length (w : Nat) (rows : List DailyRecord) :
    (deriveRows w rows).length = rows.length := by
  simp [deriveRows]

theorem rollingMeanO_getD (w : Nat) (xs : List (Option ℚ)) {i : Nat} (hi : i < xs.length) :
    (rollingMeanO w xs).getD i none =
      if 1 ≤ w ∧ w ≤ i + 1 then
        (seqO ((xs.drop (i + 1 - w)).take w)).map (fun vs => vs.sum / (w : ℚ))
      else none := by
  rw [List.getD_eq_getElem _ _ (by simpa [rollingMeanO_length] using hi)]
  simp [rollingMeanO]

theorem shiftNeg_getD (p : Nat) (xs : List (Option ℚ)) {i : Nat} (hi : i < xs.length) :
    (shiftNeg p xs).getD i none = xs.getD (i + p) none := by
  rw [List.getD_eq_getElem _ _ (by simpa [shiftNeg_length] using hi)]
  simp [shiftNeg]

theorem rollingAvgShift_getD_lt (w : Nat) (xs : List (Option ℚ)) {i : Nat}
    (hw : 1 ≤ w) (hi : i + w < xs.length) :
    (rollingAvgShift w xs).getD i none =
      (seqO ((xs.drop (i + 1)).take w)).map (fun vs => vs.sum / (w : ℚ)) := by
  unfold rollingAvgShift
  rw [shiftNeg_getD _ _ (by simp [rollingMeanO_length]; omega)]
  rw [rollingMeanO_getD _ _ (by omega)]
  rw [if_pos ⟨hw, by omega⟩]
  have harg : i + w + 1 - w = i + 1 := by omega
  rw [harg]

theorem rollingAvgShift_getD_ge (w : Nat) (xs : List (Option ℚ)) {i : Nat}
    (hi : xs.length ≤ i + w) :
    (rollingAvgShift w xs).getD i none = none := by
  unfold rollingAvgShift
  by_cases h : i < xs.length
  · rw [shiftNeg_getD _ _ (by simpa [rollingMeanO_length] using h)]
    exact List.getD_eq_default _ _ (by simp [rollingMeanO_length]; omega)
  · exact List.getD_eq_default _ _ (by simp [shiftNeg_length, rollingMeanO_length]; omega)

theorem seqO_map_some (l : List ℚ) : seqO (l.map some) = some l := by
  induction l with
  | nil => simp [seqO]
  | cons x rest ih => simp [seqO, ih]

theorem rollingAvgShift_map_some_getD (w : Nat) (xs : List ℚ) {i : Nat}
    (hw : 1 ≤ w) (hi : i + w < xs.length) :
    (rollingAvgShift w (xs.map some)).getD i none =
      some ((((xs.drop (i + 1)).take w).sum) / (w : ℚ)) := by
  rw [rollingAvgShift_getD_lt w _ hw (by simpa using hi)]
  rw [← List.map_drop, ← List.map_take, seqO_map_some]
  rfl

theorem deriveRows_getD (w : Nat) (rows : List DailyRecord) {i : Nat} (hi : i < rows.length) :
    (deriveRows w rows).getD i dummyDerived =
      { date := (rows.getD i dummyRecord).date,
        positive := (rows.getD i dummyRecord).positive,
        negative := (rows.getD i dummyRecord).negative,
        positiveIncrease := (rows.getD i dummyRecord).positiveIncrease,
        deathIncrease := (rows.getD i dummyRecord).deathIncrease,
        death := (rows.getD i dummyRecord).death,
        infection_rate := (rows.map infectionRateOf).getD i none,
        infection_rate_avg := (rollingAvgShift w (rows.map infectionRateOf)).getD i none,
        new_cases_avg :=
          (rollingAvgShift w (rows.map (fun r => some r.positiveIncrease))).getD i none,
        new_deaths_avg :=
          (rollingAvgShift w (rows.map (fun r => some r.deathIncrease))).getD i none,
        death_rate := (rows.map deathRateOf).getD i none,
        death_rate_avg := (rollingAvgShift w (rows.map deathRateOf)).getD i none } := by
  unfold deriveRows
  rw [List.getD_eq_getElem _ _ (by simpa using hi)]
  simp

/-! ## Claim theorems -/

/-- C10: the derivation step only adds the six derived columns. Projecting
each derived row back to the original six fields recovers the filtered
frame exactly (same values of `date`, `positive`, `negative`,
`positiveIncrease`, `deathIncrease`, `death`, in the same order), and the
filtered frame is an order-preserving selection (sublist) of the input
frame. -/
theorem derive_frame_preserves_originals (w : Nat) (t : Int) (rows : List DailyRecord) :
    (deriveRows w (filteredRows t rows)).map origOf = filteredRows t rows ∧
    (filteredRows t rows).Sublist rows := by
  constructor
  · apply List.ext_getElem
    · simp [deriveRows_length]
    · intro n h1 h2
      rw [List.getElem_map]
      have hn : n < (filteredRows t rows).length := h2
      have hd := deriveRows_getD w (filteredRows t rows) (i := n) hn
      rw [List.getD_eq_getElem _ _ (by simpa [deriveRows_length] using hn)] at hd
      rw [hd]
      simp [origOf, List.getElem?_eq_getElem hn]
  · exact List.filter_sublist rows

/-- C4: with window `w ≥ 1` and a series of length `n ≥ w` whose raw values
are all defined, the averaged column `rolling(window=w).mean().shift(-w)`
has a defined value exactly at the positions before the final `w` ones:
position `i` is defined iff `i < n - w`. -/
theorem rolling_trailing_gap (xs : List ℚ) (w : Nat) (hw : 1 ≤ w) (hwn : w ≤ xs.length)
    (i : Nat) (hi : i < xs.length) :
    (rollingAvgShift w (xs.map some)).length = xs.length ∧
    (((rollingAvgShift w (xs.map some)).getD i none).isSome ↔ i < xs.length - w) := by
  refine ⟨by simp [rollingAvgShift_length], ?_⟩
  by_cases h : i + w < xs.length
  · rw [rollingAvgShift_map_some_getD w xs hw h]
    exact iff_of_true rfl (by omega)
  · rw [rollingAvgShift_getD_ge w _ (by simp; omega)]
    exact iff_of_false (by simp) (by omega)

theorem rolling_trailing_gap_witness :
    (rollingAvgShift 2 ([(1:ℚ), 2, 3].map some)).length = [(1:ℚ), 2, 3].length ∧
    (((rollingAvgShift 2 ([(1:ℚ), 2, 3].map some)).getD 1 none).isSome ↔
      1 < [(1:ℚ), 2, 3].length - 2) :=
  rolling_trailing_gap [(1:ℚ), 2, 3] 2 (by decide) (by decide) 1 (by decide)

/-- C5 counterexample: for the constant series `[5, 5, 5]` with window 2
the code leaves the trailing TWO positions undefined, not
`average - 1 = 1`: the value at index 1 is `none`, not the constant 5 that
the claim requires at every non-trailing position when only the last
`average - 1` points are undefined. -/
theorem rolling_const_cex :
    rollingAvgShift 2 ([(5:ℚ), 5, 5].map some) = [some 5, none, none] ∧
    (rollingAvgShift 2 ([(5:ℚ), 5, 5].map some)).getD 1 none ≠ some 5 := by
  have heval : rollingAvgShift 2 ([(5:ℚ), 5, 5].map some) = [some 5, none, none] := by
    norm_num [rollingAvgShift, rollingMeanO, shiftNeg, seqO, List.range_succ]
  exact ⟨heval, by rw [heval]; simp⟩

/-- C5 amended: the averaged column of a constant series equals the
constant at every defined position, and exactly the trailing `average`
positions (not `average - 1`) are undefined: for `1 ≤ w ≤ n` the result is
`n - w` copies of the constant followed by `w` missing values. -/
theorem rolling_const (c : ℚ) (n w : Nat) (hw : 1 ≤ w) (hwn : w ≤ n) :
    rollingAvgShift w ((List.replicate n c).map some) =
      List.replicate (n - w) (some c) ++ List.replicate w (none : Option ℚ) := by
  apply List.ext_getElem
  · simp [rollingAvgShift_length]; omega
  · intro i h1 h2
    have hiN : i < n := by simpa [rollingAvgShift_length] using h1
    rw [← List.getD_eq_getElem _ none h1]
    rw [List.getElem_append]
    by_cases h : i + w < n
    · rw [rollingAvgShift_map_some_getD w _ hw (by simpa using h)]
      rw [List.drop_replicate, List.take_replicate]
      rw [inf_eq_left.mpr (by omega : w ≤ n - (i + 1))]
      rw [List.sum_replicate, nsmul_eq_mul]
      rw [mul_div_cancel_left₀ _ (Nat.cast_ne_zero.mpr (by omega) : (w:ℚ) ≠ 0)]
      rw [dif_pos (by simp [List.length_replicate]; omega)]
      rw [List.getElem_replicate]
    · rw [rollingAvgShift_getD_ge w _ (by simp; omega)]
      rw [dif_neg (by simp [List.length_replicate]; omega)]
      rw [List.getElem_replicate]

theorem rolling_const_witness :
    rollingAvgShift 2 ((List.replicate 3 (5:ℚ)).map some) =
      List.replicate 1 (some (5:ℚ)) ++ List.replicate 2 (none : Option ℚ) :=
  rolling_const 5 3 2 (by decide) (by decide)

/-- Concrete 8-row frame for exercising the rolling alignment: every row
passes a `--positive-start 5` filter, `positiveIncrease` is
`[7, 0, 0, 0, 0, 0, 0, 0]`, and the two rates are defined on every row. -/
def cexRows : List DailyRecord :=
  [{ date := 0, positive := 10, negative := 10, positiveIncrease := 7,
     deathIncrease := 0, death := 5 },
   { date := 1, positive := 10, negative := 10, positiveIncrease := 0,
     deathIncrease := 0, death := 5 },
   { date := 2, positive := 10, negative := 10, positiveIncrease := 0,
     deathIncrease := 0, death := 5 },
   { date := 3, positive := 10, negative := 10, positiveIncrease := 0,
     deathIncrease := 0, death := 5 },
   { date := 4, positive := 10, negative := 10, positiveIncrease := 0,
     deathIncrease := 0, death := 5 },
   { date := 5, positive := 10, negative := 10, positiveIncrease := 0,
     deathIncrease := 0, death := 5 },
   { date := 6, positive := 10, negative := 10, positiveIncrease := 0,
     deathIncrease := 0, death := 5 },
   { date := 7, positive := 10, negative := 10, positiveIncrease := 0,
     deathIncrease := 0, death := 5 }]

/-- C1 counterexample: with `--average 7 --positive-start 5` on `cexRows`
(all rows pass the filter), `new_cases_avg` at row 0 is the mean of rows
1 through 7 of `positiveIncrease` (namely 0), not the mean of rows 0
through 6 (namely 1) that the claim requires: `shift(-w)` overshoots the
start of the window by one position. -/
theorem rolling_alignment_cex :
    filteredRows 5 cexRows = cexRows ∧
    ((deriveRows 7 (filteredRows 5 cexRows)).getD 0 dummyDerived).new_cases_avg = some 0 ∧
    (((cexRows.map (fun r => r.positiveIncrease)).take 7).sum / (7:ℚ)) = 1 ∧
    ((deriveRows 7 (filteredRows 5 cexRows)).getD 0 dummyDerived).new_cases_avg ≠
      some (((cexRows.map (fun r => r.positiveIncrease)).take 7).sum / (7:ℚ)) := by
  have hfil : filteredRows 5 cexRows = cexRows := by
    norm_num [filteredRows, cexRows, List.filter_cons]
  have hmean : (((cexRows.map (fun r => r.positiveIncrease)).take 7).sum / (7:ℚ)) = 1 := by
    norm_num [cexRows]
  have hmap : cexRows.map (fun r => some r.positiveIncrease) =
      (cexRows.map (fun r => r.positiveIncrease)).map some := by
    simp [List.map_map, Function.comp]
  have hval : ((deriveRows 7 (filteredRows 5 cexRows)).getD 0 dummyDerived).new_cases_avg
      = some 0 := by
    rw [hfil, deriveRows_getD 7 cexRows (by norm_num [cexRows] : 0 < cexRows.length)]
    show (rollingAvgShift 7 (cexRows.map (fun r => some r.positiveIncrease))).getD 0 none = _
    rw [hmap, rollingAvgShift_map_some_getD 7 _ (by norm_num)
      (by norm_num [cexRows] : 0 + 7 < (cexRows.map (fun r => r.positiveIncrease)).length)]
    norm_num [cexRows]
  refine ⟨hfil, hval, hmean, ?_⟩
  rw [hval, hmean]
  norm_num

/-- C1 amended: each defined rolling-average value aligns one position
PAST the start of its window: with window `w`, the value placed at row `i`
is the mean of the `w` raw values at rows `i+1` through `i+w` (not `i`
through `i+w-1`). This holds for all four averaged columns; for the two
rate columns the statement is conditional on the window of rates being
defined (`seqO` returning `some`). In particular, with `--average 7`,
`new_cases_avg` at row 0 is the mean of rows 1 through 7 of
`positiveIncrease`. -/
theorem rolling_alignment (w : Nat) (rows : List DailyRecord) (hw : 1 ≤ w) (i : Nat)
    (hi : i + w < rows.length) (vs1 vs2 : List ℚ)
    (h1 : seqO (((rows.map infectionRateOf).drop (i + 1)).take w) = some vs1)
    (h2 : seqO (((rows.map deathRateOf).drop (i + 1)).take w) = some vs2) :
    ((deriveRows w rows).getD i dummyDerived).new_cases_avg =
      some ((((rows.map (fun r => r.positiveIncrease)).drop (i + 1)).take w).sum / (w : ℚ)) ∧
    ((deriveRows w rows).getD i dummyDerived).new_deaths_avg =
      some ((((rows.map (fun r => r.deathIncrease)).drop (i + 1)).take w).sum / (w : ℚ)) ∧
    ((deriveRows w rows).getD i dummyDerived).infection_rate_avg = some (vs1.sum / (w : ℚ)) ∧
    ((deriveRows w rows).getD i dummyDerived).death_rate_avg = some (vs2.sum / (w : ℚ)) := by
  have hiN : i < rows.length := by omega
  rw [deriveRows_getD w rows hiN]
  refine ⟨?_, ?_, ?_, ?_⟩
  · show (rollingAvgShift w (rows.map (fun r => some r.positiveIncrease))).getD i none = _
    have hmap : rows.map (fun r => some r.positiveIncrease) =
        (rows.map (fun r => r.positiveIncrease)).map some := by
      simp [List.map_map, Function.comp]
    rw [hmap, rollingAvgShift_map_some_getD w _ hw (by simpa using hi)]
  · show (rollingAvgShift w (rows.map (fun r => some r.deathIncrease))).getD i none = _
    have hmap : rows.map (fun r => some r.deathIncrease) =
        (rows.map (fun r => r.deathIncrease)).map some := by
      simp [List.map_map, Function.comp]
    rw [hmap, rollingAvgShift_map_some_getD w _ hw (by simpa using hi)]
  · show (rollingAvgShift w (rows.map infectionRateOf)).getD i none = _
    rw [rollingAvgShift_getD_lt w _ hw (by simpa using hi), h1]
    rfl
  · show (rollingAvgShift w (rows.map deathRateOf)).getD i none = _
    rw [rollingAvgShift_getD_lt w _ hw (by simpa using hi), h2]
    rfl

theorem rolling_alignment_witness :
    ((deriveRows 7 cexRows).getD 0 dummyDerived).new_cases_avg =
      some ((((cexRows.map (fun r => r.positiveIncrease)).drop (0 + 1)).take 7).sum / (7 : ℚ)) ∧
    ((deriveRows 7 cexRows).getD 0 dummyDerived).new_deaths_avg =
      some ((((cexRows.map (fun r => r.deathIncrease)).drop (0 + 1)).take 7).sum / (7 : ℚ)) ∧
    ((deriveRows 7 cexRows).getD 0 dummyDerived).infection_rate_avg =
      some ((List.replicate 7 ((10:ℚ) / (10 + 10) * 100)).sum / (7 : ℚ)) ∧
    ((deriveRows 7 cexRows).getD 0 dummyDerived).death_rate_avg =
      some ((List.replicate 7 ((5:ℚ) / 10 * 100)).sum / (7 : ℚ)) :=
  rolling_alignment 7 cexRows (by norm_num) 0 (by norm_num [cexRows])
    (List.replicate 7 ((10:ℚ) / (10 + 10) * 100)) (List.replicate 7 ((5:ℚ) / 10 * 100))
    (by norm_num [cexRows, infectionRateOf, seqO, List.replicate])
    (by norm_num [cexRows, deathRateOf, seqO, List.replicate])

/-- C6 counterexample: the record with all counts zero satisfies every
well-formedness inequality of the claim (`0 ≤ positive ≤ positive +
negative`, `0 ≤ death ≤ positive`), yet both denominators are zero, so in
pandas both rates are NaN (modelled `none`) and lie in no interval at all,
in particular not in [0,100]. -/
theorem rates_cex :
    (0:ℚ) ≤ dummyRecord.positive ∧
    dummyRecord.positive ≤ dummyRecord.positive + dummyRecord.negative ∧
    (0:ℚ) ≤ dummyRecord.death ∧ dummyRecord.death ≤ dummyRecord.positive ∧
    infectionRateOf dummyRecord = none ∧ deathRateOf dummyRecord = none := by
  simp [dummyRecord, infectionRateOf, deathRateOf]

/-- C6 amended: for records satisfying the well-formedness inequalities
AND having a strictly positive cumulative positive count (so that both
denominators are nonzero; after filtering with any nonnegative threshold
this always holds), the two rates are given by the claimed formulas and
lie within [0,100]. -/
theorem rates_in_range (r : DailyRecord) (hpos : 0 ≤ r.positive)
    (hneg : r.positive ≤ r.positive + r.negative) (hd0 : 0 ≤ r.death)
    (hdp : r.death ≤ r.positive) (hppos : 0 < r.positive) :
    infectionRateOf r = some (r.positive / (r.positive + r.negative) * 100) ∧
    0 ≤ r.positive / (r.positive + r.negative) * 100 ∧
    r.positive / (r.positive + r.negative) * 100 ≤ 100 ∧
    deathRateOf r = some (r.death / r.positive * 100) ∧
    0 ≤ r.death / r.positive * 100 ∧
    r.death / r.positive * 100 ≤ 100 := by
  have hsum : 0 < r.positive + r.negative := lt_of_lt_of_le hppos hneg
  have hinf1 : (0:ℚ) ≤ r.positive / (r.positive + r.negative) :=
    div_nonneg hpos (le_of_lt hsum)
  have hinf2 : r.positive / (r.positive + r.negative) ≤ 1 :=
    (div_le_one hsum).mpr hneg
  have hdr1 : (0:ℚ) ≤ r.death / r.positive := div_nonneg hd0 (le_of_lt hppos)
  have hdr2 : r.death / r.positive ≤ 1 := (div_le_one hppos).mpr hdp
  refine ⟨?_, ?_, ?_, ?_, ?_, ?_⟩
  · rw [infectionRateOf, if_neg (ne_of_gt hsum)]
  · nlinarith
  · nlinarith
  · rw [deathRateOf, if_neg (ne_of_gt hppos)]
  · nlinarith
  · nlinarith

def rateRec : DailyRecord :=
  { date := 0, positive := 10, negative := 10, positiveIncrease := 0,
    deathIncrease := 0, death := 5 }

theorem rates_in_range_witness :
    infectionRateOf rateRec = some (rateRec.positive / (rateRec.positive + rateRec.negative) * 100) ∧
    0 ≤ rateRec.positive / (rateRec.positive + rateRec.negative) * 100 ∧
    rateRec.positive / (rateRec.positive + rateRec.negative) * 100 ≤ 100 ∧
    deathRateOf rateRec = some (rateRec.death / rateRec.positive * 100) ∧
    0 ≤ rateRec.death / rateRec.positive * 100 ∧
    rateRec.death / rateRec.positive * 100 ≤ 100 :=
  rates_in_range rateRec (by norm_num [rateRec]) (by norm_num [rateRec])
    (by norm_num [rateRec]) (by norm_num [rateRec]) (by norm_num [rateRec])

/-- Auxiliary: a filter whose predicate is false on the first `k` elements
and true on the rest returns exactly the suffix from position `k`. -/
theorem filter_eq_drop_aux {p : DailyRecord → Bool} :
    ∀ (k : Nat) (l : List DailyRecord), (∀ r ∈ l.take k, p r = false) →
      (∀ r ∈ l.drop k, p r = true) → l.filter p = l.drop k := by
  intro k
  induction k with
  | zero =>
      intro l _ h2
      simpa using List.filter_eq_self.mpr (by simpa using h2)
  | succ n ih =>
      intro l h1 h2
      cases l with
      | nil => simp
      | cons a tl =>
          have ha : p a = false := h1 a (by simp)
          rw [List.filter_cons, if_neg (by simp [ha])]
          exact ih tl (fun r hr => h1 r (by simp [hr])) (fun r hr => h2 r (by simpa using hr))

/-- C7: the filter keeps exactly the records with `positive` strictly
above the threshold (a record with `positive` equal to the threshold is
dropped), and when the `positive` column is monotone non-decreasing and
first exceeds the threshold at row `k` (rows before `k` are at or below
it), the filtered series is exactly the suffix of the frame starting at
row `k`. -/
theorem filter_threshold (t : Int) (rows : List DailyRecord)
    (hmono : rows.Pairwise (fun a b => a.positive ≤ b.positive)) (k : Nat)
    (hk : k < rows.length)
    (hbefore : ∀ r ∈ rows.take k, r.positive ≤ (t : ℚ))
    (hat : (t : ℚ) < (rows.getD k dummyRecord).positive) :
    (∀ r, r ∈ filteredRows t rows ↔ r ∈ rows ∧ (t : ℚ) < r.positive) ∧
    filteredRows t rows = rows.drop k := by
  constructor
  · intro r
    rw [filteredRows, List.mem_filter, decide_eq_true_iff]
  · have hdropPW : (rows.drop k).Pairwise (fun a b => a.positive ≤ b.positive) :=
      hmono.sublist (List.drop_sublist k rows)
    have hdrop : rows.drop k = rows[k] :: rows.drop (k + 1) := List.drop_eq_getElem_cons hk
    have hatk : (t : ℚ) < rows[k].positive := by
      rwa [List.getD_eq_getElem _ _ hk] at hat
    have hafter : ∀ r ∈ rows.drop k, (t : ℚ) < r.positive := by
      intro r hr
      rw [hdrop] at hr hdropPW
      rcases List.mem_cons.mp hr with h | h
      · subst h; exact hatk
      · exact lt_of_lt_of_le hatk ((List.pairwise_cons.mp hdropPW).1 r h)
    apply filter_eq_drop_aux k rows
    · intro r hr
      have := hbefore r hr
      simp only [decide_eq_false_iff_not]
      exact not_lt.mpr this
    · intro r hr
      exact decide_eq_true (hafter r hr)

def stepRows : List DailyRecord :=
  [dummyRecord,
   { date := 1, positive := 20, negative := 0, positiveIncrease := 0,
     deathIncrease := 0, death := 0 }]

theorem filter_threshold_witness :
    (∀ r, r ∈ filteredRows 10 stepRows ↔ r ∈ stepRows ∧ ((10:Int) : ℚ) < r.positive) ∧
    filteredRows 10 stepRows = stepRows.drop 1 :=
  filter_threshold 10 stepRows
    (by simp [stepRows, dummyRecord, List.pairwise_cons]) 1
    (by simp [stepRows])
    (by simp [stepRows, dummyRecord])
    (by simp [stepRows, dummyRecord]; norm_num)

/-- Two character codes with the same ASCII lowering have the same ASCII
uppering. -/
theorem upperChar_eq_of_lowerChar_eq {a b : Nat} (h : lowerChar a = lowerChar b) :
    upperChar a = upperChar b := by
  unfold lowerChar at h
  unfold upperChar
  split_ifs at h ⊢ <;> omega

/-- Two strings with the same lowercasing have the same uppercasing. -/
theorem pyUpper_eq_of_pyLower_eq : ∀ {s1 s2 : List Nat},
    pyLower s1 = pyLower s2 → pyUpper s1 = pyUpper s2 := by
  intro s1
  induction s1 with
  | nil =>
      intro s2 h
      cases s2 with
      | nil => rfl
      | cons b t2 => simp [pyLower] at h
  | cons a t ih =>
      intro s2 h
      cases s2 with
      | nil => simp [pyLower] at h
      | cons b t2 =>
          simp only [pyLower, List.map_cons, List.cons.injEq] at h
          simp only [pyUpper, List.map_cons, List.cons.injEq]
          exact ⟨upperChar_eq_of_lowerChar_eq h.1, ih h.2⟩

/-- C9: the state code is case-normalised inconsistently: the fetch URL
always uses the lowercased code and the title label always uses the
uppercased code, but the output filename interpolates the code exactly as
given; hence two invocations whose state codes differ only in letter case
resolve the same URL and the same label, yet (when the codes differ at
all) write differently named output files. -/
theorem case_handling (a t : Int) (s1 s2 : List Nat) (h : pyLower s1 = pyLower s2) :
    (resolveConfig (get_options a (some s1) t)).url =
      (resolveConfig (get_options a (some s2) t)).url ∧
    (resolveConfig (get_options a (some s1) t)).label =
      (resolveConfig (get_options a (some s2) t)).label ∧
    (s1 ≠ s2 →
      (resolveConfig (get_options a (some s1) t)).outfile ≠
        (resolveConfig (get_options a (some s2) t)).outfile) := by
  have hlen : s1.length = s2.length := by
    have := congrArg List.length h
    simpa [pyLower] using this
  by_cases h1 : s1 = []
  · have h2 : s2 = [] := by
      subst h1
      exact (List.length_eq_zero.mp hlen.symm)
    subst h1
    subst h2
    exact ⟨rfl, rfl, fun hne => absurd rfl hne⟩
  · have h2 : s2 ≠ [] := by
      intro he
      subst he
      exact h1 (List.length_eq_zero.mp hlen)
    simp only [resolveConfig, get_options, if_neg h1, if_neg h2]
    refine ⟨by rw [h], by rw [pyUpper_eq_of_pyLower_eq h], ?_⟩
    intro hne heq
    apply hne
    exact List.append_cancel_left (List.append_cancel_right heq)

theorem case_handling_witness :
    (resolveConfig (get_options 7 (some [73, 68]) 1000)).url =
      (resolveConfig (get_options 7 (some [105, 100]) 1000)).url ∧
    (resolveConfig (get_options 7 (some [73, 68]) 1000)).label =
      (resolveConfig (get_options 7 (some [105, 100]) 1000)).label ∧
    ([73, 68] ≠ [105, 100] →
      (resolveConfig (get_options 7 (some [73, 68]) 1000)).outfile ≠
        (resolveConfig (get_options 7 (some [105, 100]) 1000)).outfile) :=
  case_handling 7 1000 [73, 68] [105, 100] (by decide)

/-- Frame whose rows all sit at or below the default threshold 1000 (the
last one exactly at it). -/
def lowRows : List DailyRecord :=
  [{ date := 0, positive := 5, negative := 0, positiveIncrease := 0,
     deathIncrease := 0, death := 0 },
   { date := 1, positive := 100, negative := 0, positiveIncrease := 0,
     deathIncrease := 0, death := 0 },
   { date := 2, positive := 1000, negative := 0, positiveIncrease := 0,
     deathIncrease := 0, death := 0 }]

/-- C2 counterexample: with the default options (`--average 7
--positive-start 1000`) and a frame in which every row has
`positive ≤ 1000`, the program does NOT terminate normally and write the
output file: the filtered series is empty, so `date[-1]` at covid.py line
82 raises IndexError before `fig.savefig` is reached. -/
theorem empty_filter_cex :
    create_graphs (get_options 7 none 1000) lowRows =
      Except.error "IndexError: list index out of range" := by
  have hfil : filteredRows 1000 lowRows = [] := by
    norm_num [filteredRows, lowRows, List.filter_cons]
  simp [create_graphs, get_options, hfil]

/-- C2 amended: whenever no record has `positive` above the threshold (and
the averaging window is nonnegative, so that the rolling step itself does
not raise first), the pipeline does not complete: it stops with the
IndexError raised by `date[-1]` on the empty date list, and no output file
is written. -/
theorem empty_filter_error (opt : Options) (rows : List DailyRecord)
    (ha : 0 ≤ opt.average)
    (hlow : ∀ r ∈ rows, r.positive ≤ (opt.positive_start : ℚ)) :
    create_graphs opt rows = Except.error "IndexError: list index out of range" := by
  have hfil : filteredRows opt.positive_start rows = [] := by
    rw [filteredRows, List.filter_eq_nil_iff]
    intro r hr
    simp only [decide_eq_true_eq]
    exact not_lt.mpr (hlow r hr)
  have hna : ¬ opt.average < 0 := by omega
  simp [create_graphs, hfil, hna]

theorem empty_filter_error_witness :
    create_graphs (get_options 7 none 1000) [dummyRecord] =
      Except.error "IndexError: list index out of range" :=
  empty_filter_error (get_options 7 none 1000) [dummyRecord] (by decide)
    (by simp [get_options, dummyRecord])

/-- Single healthy row clearing a threshold of 5. -/
def okRec : DailyRecord :=
  { date := 0, positive := 10, negative := 0, positiveIncrease := 0,
    deathIncrease := 0, death := 0 }

/-- Frame containing just `okRec`. -/
def okRows : List DailyRecord := [okRec]

/-- C8 counterexample: the program does not run the pipeline for EVERY
integer `--average`: with `--average -1` (accepted by argparse without
complaint) pandas rejects the rolling window at covid.py lines 40-46 with
a ValueError, so the run terminates with an error even on a dataset that
passes the filter. -/
theorem negative_window_cex :
    create_graphs (get_options (-1) none 5) okRows =
      Except.error "ValueError: window must be an integer 0 or greater" := by
  simp [create_graphs, get_options]

/-- C8 amended: option parsing applies no validation beyond integer
coercion, and for every NONNEGATIVE `--average` (including the degenerate
window 0) and every integer `--positive-start` (including negative
values), the pipeline runs to completion on any dataset with at least one
record above the threshold; only a negative `--average` aborts the run,
and that error comes from inside the pandas rolling step, not from any
guard of the script. -/
theorem options_accepted (a t : Int) (s : Option (List Nat)) (rows : List DailyRecord)
    (r0 : DailyRecord) (ha : 0 ≤ a) (hmem : r0 ∈ rows) (hpass : (t : ℚ) < r0.positive) :
    create_graphs (get_options a s t) rows =
      Except.ok { config := resolveConfig (get_options a s t),
                  derived := deriveRows a.toNat (filteredRows t rows),
                  xticks := xticksOf ((filteredRows t rows).map (fun r => r.date)) } := by
  have hne : filteredRows t rows ≠ [] :=
    List.ne_nil_of_mem (List.mem_filter.mpr ⟨hmem, decide_eq_true hpass⟩)
  have hna : ¬ a < 0 := by omega
  simp only [create_graphs, get_options, if_neg hna]
  rw [if_neg (fun hc => hne (List.map_eq_nil_iff.mp hc))]

theorem options_accepted_witness :
    create_graphs (get_options 0 none (-1)) okRows =
      Except.ok { config := resolveConfig (get_options 0 none (-1)),
                  derived := deriveRows (0 : Int).toNat (filteredRows (-1) okRows),
                  xticks := xticksOf ((filteredRows (-1) okRows).map (fun r => r.date)) } :=
  options_accepted 0 (-1) none okRows okRec (by decide) (by simp [okRows])
    (by norm_num [okRec])

/-- Fourteen consecutive dates, day 0 a Monday, ending on day 13 (a
Sunday). -/
def dates14 : List Int := [0, 1, 2, 3, 4, 5, 6, 7, 8, 9, 10, 11, 12, 13]

/-- C3 counterexample: for `dates14` the anchor is day 7 (the Monday on or
before the last date, day 13) and the generated ticks are `[7, 14, 21]`:
they walk FORWARD from the anchor in 7-day steps. The second tick is not
`anchor - 7`, and days 0 through 6 of the range lie before every tick, so
the ticks do not walk backward from the anchor to cover the full date
range as the claim states. -/
theorem xticks_cex :
    xticksOf dates14 = [7, 14, 21] ∧
    (xticksOf dates14).getD 1 0 ≠ (xticksOf dates14).getD 0 0 - 7 ∧
    (0 : Int) ∈ dates14 := by
  have h : xticksOf dates14 = [7, 14, 21] := by
    rw [xticksOf_eq]
    decide
  exact ⟨h, by rw [h]; decide, by decide⟩

/-- Length of the tick list. -/
theorem xticksOf_length (dates : List Int) :
    (xticksOf dates).length = Nat.ceil ((dates.length : ℚ) / 7) + 1 := by
  unfold xticksOf
  rw [List.length_map, List.length_range]

/-- Value of the tick at index `i`. -/
theorem xticksOf_getD (dates : List Int) {i : Nat}
    (hi : i < Nat.ceil ((dates.length : ℚ) / 7) + 1) :
    (xticksOf dates).getD i 0 =
      (dates.getLastD 0 - dates.getLastD 0 % 7) + 7 * (i : Int) := by
  have hi2 : i < (xticksOf dates).length := by rw [xticksOf_length]; exact hi
  rw [List.getD_eq_getElem _ _ hi2]
  unfold xticksOf
  rw [List.getElem_map, List.getElem_range]

/-- C3 amended: for a non-empty series of N dated records the major ticks
number exactly `ceil(N/7) + 1`, are spaced 7 days apart, and start at the
Monday on or before the last (most recent) date; but they walk FORWARD
from that anchor (extending past the most recent date) rather than
backward over the date range. -/
theorem xticks_shape (dates : List Int) (hne : dates ≠ []) (i : Nat)
    (hi : i + 1 < (dates.length + 6) / 7 + 1) :
    (xticksOf dates).length = Nat.ceil ((dates.length : ℚ) / 7) + 1 ∧
    (xticksOf dates).getD 0 0 = dates.getLastD 0 - dates.getLastD 0 % 7 ∧
    (dates.getLastD 0 - dates.getLastD 0 % 7) % 7 = 0 ∧
    dates.getLastD 0 - dates.getLastD 0 % 7 ≤ dates.getLastD 0 ∧
    dates.getLastD 0 - 7 < dates.getLastD 0 - dates.getLastD 0 % 7 ∧
    (xticksOf dates).getD (i + 1) 0 = (xticksOf dates).getD i 0 + 7 := by
  have hceil : Nat.ceil ((dates.length : ℚ) / 7) = (dates.length + 6) / 7 :=
    ceil_div_seven _
  refine ⟨xticksOf_length dates, ?_, by omega, by omega, by omega, ?_⟩
  · rw [xticksOf_getD dates (by rw [hceil]; omega)]
    simp
  · rw [xticksOf_getD dates (i := i + 1) (by rw [hceil]; omega),
      xticksOf_getD dates (i := i) (by rw [hceil]; omega)]
    push_cast
    ring

theorem xticks_shape_witness :
    (xticksOf dates14).length = Nat.ceil ((dates14.length : ℚ) / 7) + 1 ∧
    (xticksOf dates14).getD 0 0 = dates14.getLastD 0 - dates14.getLastD 0 % 7 ∧
    (dates14.getLastD 0 - dates14.getLastD 0 % 7) % 7 = 0 ∧
    dates14.getLastD 0 - dates14.getLastD 0 % 7 ≤ dates14.getLastD 0 ∧
    dates14.getLastD 0 - 7 < dates14.getLastD 0 - dates14.getLastD 0 % 7 ∧
    (xticksOf dates14).getD (0 + 1) 0 = (xticksOf dates14).getD 0 0 + 7 :=
  xticks_shape dates14 (by decide) 0 (by decide)
